import Mathlib

/-!
Verification of the POS-tagging pipeline of `berttagr_file`.

The core of the repository (`src/pos_tagging.rs`) post-processes the output of a
token-classification backend: a per-token punctuation heuristic overrides
low-confidence labels on punctuation-only words, and each token is projected
to a `POSTag { word, label }`.  The host-embedding wrapper
(`src/rusttagr.rs`) serializes the result or fails loudly.

Floating-point scores are only ever compared against the constants 0.5 and
1.0 and tested for NaN, so `f64` is embedded as `F64`: either NaN or an exact
rational value.  IEEE semantics of the two operations used by the code are
preserved: `NaN < x` is false and `isNaN` detects NaN.
-/

/-- Shallow embedding of the `f64` values flowing through the pipeline:
either NaN or an exact rational.  The code only compares scores with `<`
and tests `is_nan`, both of which this embedding models exactly. -/
inductive F64 where
  | nan : F64
  | val : ℚ → F64
deriving DecidableEq

/-- Rust `a < b` on `f64`: false whenever either side is NaN. -/
def F64.lt : F64 → F64 → Bool
  | .val a, .val b => decide (a < b)
  | _, _ => false

/-- Rust `f64::is_nan`. -/
def F64.isNaN : F64 → Bool
  | .nan => true
  | .val _ => false

@[simp] theorem F64.lt_val_val (a b : ℚ) : F64.lt (F64.val a) (F64.val b) = decide (a < b) := rfl

@[simp] theorem F64.lt_nan_left (b : F64) : F64.lt F64.nan b = false := rfl

@[simp] theorem F64.isNaN_val (a : ℚ) : F64.isNaN (F64.val a) = false := rfl

@[simp] theorem F64.isNaN_nan : F64.isNaN F64.nan = true := rfl

/-- Rust `char::is_ascii_punctuation`: the four ASCII punctuation ranges
`!..=/`, `:..=@`, `[..=` backquote, and `\x7b..=~`. -/
def is_ascii_punct (c : Char) : Bool :=
  (0x21 ≤ c.toNat && c.toNat ≤ 0x2F) ||
  (0x3A ≤ c.toNat && c.toNat ≤ 0x40) ||
  (0x5B ≤ c.toNat && c.toNat ≤ 0x60) ||
  (0x7B ≤ c.toNat && c.toNat ≤ 0x7E)

/-- Rust `POSModel::is_punctuation`: `string.chars().all(|c| c.is_ascii_punctuation())`.
Rust `Iterator::all` is vacuously true on the empty iterator. -/
def is_punctuation (s : String) : Bool :=
  s.data.all is_ascii_punct

/-- One token as returned by the token-classification backend; only the
fields the pipeline reads (`text`, `label`, `score`) are embedded. -/
structure Token where
  text : String
  label : String
  score : F64
deriving DecidableEq

/-- Public output unit `POSTag { word, label }`. -/
structure POSTag where
  word : String
  label : String
deriving DecidableEq

/-- The per-token closure of `POSModel::predict`: if the text is
punctuation-only and the score is below 0.5 or NaN, force label `"."` and
score `1.0`; otherwise leave the token unchanged. -/
def correctToken (token : Token) : Token :=
  if is_punctuation token.text && (F64.lt token.score (F64.val (1/2)) || token.score.isNaN)
  then { token with label := ".", score := F64.val 1 }
  else token

/-- Projection of a corrected token to the public `POSTag`, as in the second
`map` of `POSModel::predict`. -/
def processToken (token : Token) : POSTag :=
  { word := (correctToken token).text, label := (correctToken token).label }

/-- Structure `POSModel`: holds the token-classification backend.  The backend
(the function `TokenClassificationModel::predict` of `rust_bert`, an external
collaborator) is embedded as a function from the batch of texts to per-text token lists. -/
structure POSModel where
  token_classification_model : List String → List (List Token)

/-- Rust `POSModel::predict`: map the punctuation heuristic and the `POSTag`
projection over every token of every sequence the backend returns. -/
def POSModel.predict (self : POSModel) (input : List String) : List (List POSTag) :=
  (self.token_classification_model input).map (fun seq => seq.map processToken)

theorem correctToken_fire (t : Token)
    (h : (is_punctuation t.text && (F64.lt t.score (F64.val (1/2)) || t.score.isNaN)) = true) :
    correctToken t = { t with label := ".", score := F64.val 1 } := by
  unfold correctToken
  rw [h]
  simp

theorem correctToken_skip (t : Token)
    (h : (is_punctuation t.text && (F64.lt t.score (F64.val (1/2)) || t.score.isNaN)) = false) :
    correctToken t = t := by
  unfold correctToken
  rw [h]
  simp

/-- Claim C1: a punctuation-only token whose score is below 0.5 or NaN is
finalized with label `"."`, its word text kept, and its internal score forced
to `1.0`, regardless of the predicted label. -/
theorem punct_override (t : Token)
    (hp : is_punctuation t.text = true)
    (hs : (F64.lt t.score (F64.val (1/2)) || t.score.isNaN) = true) :
    processToken t = { word := t.text, label := "." } ∧
    (correctToken t).score = F64.val 1 := by
  have h := correctToken_fire t (by rw [hp, hs]; rfl)
  simp [processToken, h]

/-- Witness for C1: the synthetic input word `"!"` with label `"NN"` and
score `0.2` is finalized as `POSTag \x7b word: "!", label: "." \x7d`. -/
theorem punct_override_witness :
    is_punctuation "!" = true ∧
    (F64.lt (F64.val (1/5)) (F64.val (1/2)) || F64.isNaN (F64.val (1/5))) = true ∧
    processToken ⟨"!", "NN", F64.val (1/5)⟩ = { word := "!", label := "." } ∧
    (correctToken ⟨"!", "NN", F64.val (1/5)⟩).score = F64.val 1 := by
  refine ⟨by decide, by norm_num, ?_⟩
  exact punct_override ⟨"!", "NN", F64.val (1/5)⟩ (by decide) (by norm_num)

/-- Counterexample to claim C2: the claim says `is_punctuation` returns
`false` on the empty string and that an empty-text token is never overridden;
in the code `"".chars().all(...)` is vacuously `true`, and an empty-text
token with score `0.2` IS overridden to label `"."`. -/
theorem empty_punct_cex :
    is_punctuation "" = true ∧
    correctToken ⟨"", "NN", F64.val (1/5)⟩ =
      ⟨"", ".", F64.val 1⟩ := by
  constructor
  · decide
  · exact correctToken_fire ⟨"", "NN", F64.val (1/5)⟩ (by norm_num [is_punctuation])

/-- Amended claim C2: the empty word IS considered punctuation-only (the
all-characters test is vacuously true on the empty string), so a token whose
text is empty and whose score is below 0.5 or NaN IS overridden by the
punctuation heuristic. -/
theorem empty_punct_amended (t : Token) (ht : t.text = "")
    (hs : (F64.lt t.score (F64.val (1/2)) || t.score.isNaN) = true) :
    is_punctuation t.text = true ∧
    correctToken t = { t with label := ".", score := F64.val 1 } := by
  have hp : is_punctuation t.text = true := by rw [ht]; decide
  exact ⟨hp, correctToken_fire t (by rw [hp, hs]; rfl)⟩

/-- Witness for the amended C2: the empty-text token with label `"NN"` and
score `0.2` is overridden to label `"."` with score `1.0`. -/
theorem empty_punct_amended_witness :
    is_punctuation (Token.text ⟨"", "NN", F64.val (1/5)⟩) = true ∧
    correctToken ⟨"", "NN", F64.val (1/5)⟩ =
      { Token.mk "" "NN" (F64.val (1/5)) with label := ".", score := F64.val 1 } :=
  empty_punct_amended ⟨"", "NN", F64.val (1/5)⟩ rfl (by norm_num)

/-- Claim C3: a token that is not punctuation-only, or whose score is at
least 0.5 and not NaN, is left exactly as aggregated: the heuristic changes
no field and the finalized `POSTag` carries the aggregated word and label. -/
theorem no_override (t : Token)
    (h : is_punctuation t.text = false ∨ ∃ q : ℚ, t.score = F64.val q ∧ 1/2 ≤ q) :
    correctToken t = t ∧
    processToken t = { word := t.text, label := t.label } := by
  have hc : (is_punctuation t.text &&
      (F64.lt t.score (F64.val (1/2)) || t.score.isNaN)) = false := by
    rcases h with hp | ⟨q, hq, hge⟩
    · rw [hp]; rfl
    · rw [hq]
      simp only [F64.lt_val_val, F64.isNaN_val, Bool.or_false, Bool.and_eq_false_iff]
      right
      simpa [decide_eq_false_iff_not] using not_lt.mpr hge
  have he := correctToken_skip t hc
  exact ⟨he, by simp [processToken, he]⟩

/-- Witness for C3: `\x7b word: "dog", label: "NN", score: 0.9 \x7d` is
finalized unchanged as `\x7b word: "dog", label: "NN" \x7d`. -/
theorem no_override_witness :
    correctToken ⟨"dog", "NN", F64.val (9/10)⟩ = ⟨"dog", "NN", F64.val (9/10)⟩ ∧
    processToken ⟨"dog", "NN", F64.val (9/10)⟩ = { word := "dog", label := "NN" } :=
  no_override ⟨"dog", "NN", F64.val (9/10)⟩ (Or.inl (by decide))

/-- Claim C4: the per-token punctuation correction is idempotent: applying it
to its own output changes nothing, so running it twice equals running it once
on every token. -/
theorem correctToken_idem (t : Token) :
    correctToken (correctToken t) = correctToken t := by
  by_cases h : (is_punctuation t.text &&
      (F64.lt t.score (F64.val (1/2)) || t.score.isNaN)) = true
  · have hf := correctToken_fire t h
    rw [hf]
    apply correctToken_skip
    simp only [Bool.and_eq_false_iff, F64.lt_val_val, F64.isNaN_val, Bool.or_false]
    right
    norm_num
  · rw [correctToken_skip t (Bool.eq_false_iff.mpr h)]
    exact correctToken_skip t (Bool.eq_false_iff.mpr h)

theorem processToken_word (t : Token) : (processToken t).word = t.text := by
  unfold processToken correctToken
  split <;> rfl

/-- Claim C10: predict never alters the word text of any token — the word
list of every finalized sequence equals the text list of the tokens of the backend, whether or not the punctuation override fires. -/
theorem predict_preserves_words (m : POSModel) (input : List String) :
    (m.predict input).map (List.map POSTag.word) =
      (m.token_classification_model input).map (List.map Token.text) := by
  unfold POSModel.predict
  rw [List.map_map]
  apply List.map_congr_left
  intro seq _
  show (seq.map processToken).map POSTag.word = seq.map Token.text
  rw [List.map_map]
  apply List.map_congr_left
  intro t _
  exact processToken_word t

/-- Claim C8: predict is deterministic: on the same constructed model
(hence the same deterministic backend), identical input batches yield
identical output sequences. -/
theorem predict_deterministic (m : POSModel) (input1 input2 : List String)
    (h : input1 = input2) :
    m.predict input1 = m.predict input2 := by
  rw [h]

/-- Witness for C8: two calls on a concrete model with the identical
one-element batch agree. -/
theorem predict_deterministic_witness :
    (POSModel.mk fun _ => [[⟨"!", "NN", F64.val (1/5)⟩]]).predict ["a"] =
      (POSModel.mk fun _ => [[⟨"!", "NN", F64.val (1/5)⟩]]).predict ["a"] :=
  predict_deterministic (POSModel.mk fun _ => [[⟨"!", "NN", F64.val (1/5)⟩]]) ["a"] ["a"] rfl

/-- Claim C5: when the backend returns one token sequence per input text in
input order (its documented contract) and an empty sequence for an empty
text, predict returns exactly one inner sequence per input text, in the same
order, and an empty input text yields an empty inner sequence. -/
theorem predict_batch_shape (m : POSModel) (input : List String)
    (hlen : (m.token_classification_model input).length = input.length)
    (hempty : ∀ i : ℕ, input[i]? = some "" →
      (m.token_classification_model input)[i]? = some []) :
    (m.predict input).length = input.length ∧
    (∀ i : ℕ, (m.predict input)[i]? =
      ((m.token_classification_model input)[i]?).map (List.map processToken)) ∧
    (∀ i : ℕ, input[i]? = some "" → (m.predict input)[i]? = some []) := by
  refine ⟨by simp [POSModel.predict, hlen], ?_, ?_⟩
  · intro i
    simp [POSModel.predict, List.getElem?_map]
  · intro i hi
    simp [POSModel.predict, List.getElem?_map, hempty i hi]

/-- Witness for C5: with a backend that returns one empty token sequence per
text, `predict [""]` returns `[[]]` — one empty inner sequence, not an
error. -/
theorem predict_batch_shape_witness :
    ((POSModel.mk fun ts => ts.map fun _ => []).predict [""]).length = 1 ∧
    (∀ i : ℕ, ((POSModel.mk fun ts => ts.map fun _ => []).predict [""])[i]? =
      (((POSModel.mk fun ts => ts.map fun _ => []).token_classification_model [""])[i]?).map
        (List.map processToken)) ∧
    (∀ i : ℕ, ([""] : List String)[i]? = some "" →
      ((POSModel.mk fun ts => ts.map fun _ => []).predict [""])[i]? = some []) :=
  predict_batch_shape (POSModel.mk fun ts => ts.map fun _ => []) [""]
    (by simp)
    (by
      intro i hi
      match i with
      | 0 => rfl
      | n + 1 => simp at hi)

/-- Modelled from the spec: `RawPrediction`, the internal pre-aggregation
record of the label aggregator (the aggregator lives in the external
`rust_bert` token-classification pipeline, not under `src/`): one entry per
sub-word fragment, flagged as continuation of the previous word or not. -/
structure RawPrediction where
  text_fragment : String
  label : String
  score : F64
  is_continuation : Bool
deriving DecidableEq

/-- Modelled from the spec: worker of the label aggregator.  It walks the
fragment sequence left to right carrying the current group (its word-start
fragment and the continuation fragments collected so far); a non-continuation
fragment closes the current group, emitting one token via the aggregation
policy, and starts a new group.  The policy parameter abstracts the
enumerated policies (First, Last, Mode, Average): it maps a group (word-start
fragment plus its continuations) to the aggregated token. -/
def aggregateGo (policy : RawPrediction → List RawPrediction → Token)
    (first : RawPrediction) (conts : List RawPrediction) :
    List RawPrediction → List Token
  | [] => [policy first conts]
  | p :: ps =>
    if p.is_continuation
    then aggregateGo policy first (conts ++ [p]) ps
    else policy first conts :: aggregateGo policy p [] ps

/-- Modelled from the spec: the label aggregator reduces an ordered
`RawPrediction` sequence to one aggregated token per word group; groups are
the maximal runs beginning at a non-continuation fragment. -/
def aggregate (policy : RawPrediction → List RawPrediction → Token) :
    List RawPrediction → List Token
  | [] => []
  | p :: ps => aggregateGo policy p [] ps

/-- Well-formed fragment sequences start with a word-start fragment (or are
empty); the spec guarantees the group structure `first entry of a group has
is_continuation = false`. -/
def wfGroups : List RawPrediction → Prop
  | [] => True
  | p :: _ => p.is_continuation = false

/-- Per-text pipeline for one input: aggregate the raw fragments into one
token per word, then apply the punctuation heuristic of the source and `POSTag`
projection to each aggregated token. -/
def predictText (policy : RawPrediction → List RawPrediction → Token)
    (raws : List RawPrediction) : List POSTag :=
  (aggregate policy raws).map processToken

theorem aggregateGo_length (policy : RawPrediction → List RawPrediction → Token)
    (first : RawPrediction) (conts : List RawPrediction) (ps : List RawPrediction) :
    (aggregateGo policy first conts ps).length =
      1 + ps.countP (fun p => !p.is_continuation) := by
  induction ps generalizing first conts with
  | nil => simp [aggregateGo]
  | cons p ps ih =>
    by_cases h : p.is_continuation
    · simp [aggregateGo, h, List.countP_cons, ih]
    · simp only [aggregateGo, if_neg h, List.length_cons, List.countP_cons, ih]
      simp [Bool.eq_false_iff.mpr h]
      omega

/-- Claim C6: for every aggregation policy and every well-formed fragment
sequence, the number of finalized `POSTag` results equals the number of
non-continuation fragments: each word-start fragment yields exactly one
output tag, continuation fragments never emit their own entry, and the
heuristic stage maps tokens one-to-one. -/
theorem predictText_count (policy : RawPrediction → List RawPrediction → Token)
    (raws : List RawPrediction) (h : wfGroups raws) :
    (predictText policy raws).length = raws.countP (fun p => !p.is_continuation) := by
  unfold predictText
  rw [List.length_map]
  match raws with
  | [] => rfl
  | p :: ps =>
    have hp : p.is_continuation = false := h
    simp [aggregate, aggregateGo_length, List.countP_cons, hp, Nat.add_comm]

/-- Witness for C6: with a First-style policy, the three-fragment sequence
`Do / ##g (continuation) / runs` yields exactly two output tags — one per
non-continuation fragment. -/
theorem predictText_count_witness :
    wfGroups [⟨"Do", "NN", F64.val 1, false⟩, ⟨"g", "NN", F64.val 1, true⟩,
      ⟨"runs", "VB", F64.val 1, false⟩] ∧
    (predictText
        (fun p conts =>
          Token.mk (p.text_fragment ++ String.join (conts.map RawPrediction.text_fragment))
            p.label p.score)
        [⟨"Do", "NN", F64.val 1, false⟩, ⟨"g", "NN", F64.val 1, true⟩,
          ⟨"runs", "VB", F64.val 1, false⟩]).length = 2 := by
  constructor
  · rfl
  · exact (predictText_count
      (fun p conts =>
        Token.mk (p.text_fragment ++ String.join (conts.map RawPrediction.text_fragment))
          p.label p.score)
      [⟨"Do", "NN", F64.val 1, false⟩, ⟨"g", "NN", F64.val 1, true⟩,
        ⟨"runs", "VB", F64.val 1, false⟩] rfl).trans (by rfl)

/-- Rust derived `Debug` escaping for the characters that matter in text
output; other printable characters are emitted verbatim. -/
def escDebugChar (c : Char) : String :=
  if c.toNat = 34 then "\\\""
  else if c.toNat = 92 then "\\\\"
  else if c.toNat = 10 then "\\n"
  else if c.toNat = 13 then "\\r"
  else if c.toNat = 9 then "\\t"
  else String.singleton c

/-- Rust `Debug` for `String`: quoted, characters escaped. -/
def debugString (s : String) : String :=
  "\"" ++ String.join (s.data.map escDebugChar) ++ "\""

/-- Rust derived `Debug` for `POSTag`. -/
def debugPOSTag (t : POSTag) : String :=
  "POSTag \x7b word: " ++ debugString t.word ++ ", label: " ++ debugString t.label ++ " \x7d"

/-- Rust `Debug` for `Vec<POSTag>`, as produced by the `\x7b:?\x7d` format of
the loop body of `rust_tag_r`. -/
def debugVec (ts : List POSTag) : String :=
  "[" ++ String.intercalate ", " (ts.map debugPOSTag) ++ "]"

/-- Rust `try_tag`: construct the model (construction may fail with a
`RustBertError`, embedded as the error string) and predict on the singleton
batch holding the one input string. -/
def try_tag (build : Except String POSModel) (input : String) :
    Except String (List (List POSTag)) :=
  match build with
  | .error e => .error e
  | .ok m => .ok (m.predict [input])

/-- Rust `rust_tag_r`: on success, serialize every per-text result into one output
string with the `for` loop of the source (`str_out.push_str(...)` per inner
vector); on failure, `panic!` — embedded as `Except.error`, producing no
output string. -/
def rust_tag_r (build : Except String POSModel) (input : String) : Except String String :=
  match try_tag build input with
  | .error e => .error e
  | .ok output => .ok (output.foldl (fun acc v => acc ++ debugVec v) "")

theorem string_join_eq_foldl (l : List String) :
    String.join l = l.foldl (fun acc v => acc ++ v) "" := rfl

theorem foldl_debugVec_eq_join (output : List (List POSTag)) :
    output.foldl (fun acc v => acc ++ debugVec v) "" =
      String.join (output.map debugVec) := by
  rw [string_join_eq_foldl, List.foldl_map]

/-- Claim C7: `rust_tag_r` is all-or-nothing: when pipeline construction or
prediction fails it propagates the failure and returns no output string, and
any output string it does return is the full serialization — the join of the
debug representation of every per-text result, never a truncated prefix. -/
theorem rust_tag_r_all_or_nothing (build : Except String POSModel) (input : String) :
    (∀ e, try_tag build input = Except.error e → rust_tag_r build input = Except.error e) ∧
    (∀ s, rust_tag_r build input = Except.ok s →
      ∃ x, try_tag build input = Except.ok x ∧ s = String.join (x.map debugVec)) := by
  constructor
  · intro e he
    unfold rust_tag_r
    rw [he]
  · intro s hs
    unfold rust_tag_r at hs
    cases ht : try_tag build input with
    | error e => rw [ht] at hs; exact absurd hs (by simp)
    | ok x =>
      rw [ht] at hs
      refine ⟨x, rfl, ?_⟩
      have : (Except.ok (x.foldl (fun acc v => acc ++ debugVec v) "") :
          Except String String) = Except.ok s := hs
      rw [← Except.ok.injEq _ _ |>.mp this, foldl_debugVec_eq_join]

/-- Witness for C7: a failed construction propagates the error — no output
string is produced. -/
theorem rust_tag_r_all_or_nothing_witness :
    rust_tag_r (Except.error "resource error") "input" = Except.error "resource error" :=
  (rust_tag_r_all_or_nothing (Except.error "resource error") "input").1
    "resource error" rfl
